import Mathlib

/-!
Shallow embedding of the `neo4j_rag.ipynb` notebook: a RAG demo wiring a
Neo4j graph database, an Ollama embedding model, Groq-hosted LLM clients,
and LangChain retrieval/agent components.  The notebook's own code is
configuration and sequential glue; the external libraries' behaviour that
the specification describes is modelled from the spec where noted.
-/

namespace Neo4jRag

/-- Connection parameters for the graph database, as assigned in the first
code cell of the notebook (`url`, `username`, `password`). -/
structure ConnectionConfig where
  url : String
  username : String
  password : String
  deriving DecidableEq, Repr

/-- The notebook's `url` variable (a placeholder string in the source). -/
def url : String := "Your neo4j instance URL"

/-- The notebook's `username` variable. -/
def username : String := "neo4j"

/-- The notebook's `password` variable (a placeholder string in the source). -/
def password : String := "Your neo4j instance password"

/-- The connection triple passed to `Neo4jGraph(url=url, username=username,
password=password)` in the first code cell: the persistent graph-database
connection object `graph`. -/
def graphConnection : ConnectionConfig := ⟨url, username, password⟩

/-- The keyword arguments of `Neo4jVector.from_existing_graph` in the vector
index cell: connection triple plus the graph-specific parameters
`index_name`, `node_label`, `text_node_properties`,
`embedding_node_property`. -/
structure VectorIndexConfig where
  conn : ConnectionConfig
  index_name : String
  node_label : String
  text_node_properties : List String
  embedding_node_property : String
  deriving DecidableEq, Repr

/-- The embedding model name passed to `OllamaEmbeddings(model="llama3")`. -/
def embeddingModelName : String := "llama3"

/-- The configuration of the `Neo4jVector.from_existing_graph` call that
constructs `vector_index` in the notebook. -/
def vectorIndexConfig : VectorIndexConfig :=
  ⟨⟨url, username, password⟩, "tasks", "Task",
    ["name", "description", "status"], "embedding"⟩

/-- Parameters of a `ChatGroq(...)` construction: `model_name` and
`temperature` are `none` when the notebook does not pass them and the
library default applies. -/
structure ChatGroqConfig where
  model_name : Option String
  temperature : Option Nat
  deriving DecidableEq, Repr

/-- The three purposes the hosted language model serves in the notebook. -/
inductive LLMPurpose
  | answerSynthesis
  | queryGeneration
  | actionSelection
  deriving DecidableEq, Repr

/-- `ChatGroq(model_name = 'llama-3.1-70b-versatile')` passed as `llm` to
`RetrievalQA.from_chain_type` (no temperature argument). -/
def retrievalQA_llm : ChatGroqConfig := ⟨some "llama-3.1-70b-versatile", none⟩

/-- `ChatGroq(temperature=0, model_name='llama-3.1-70b-versatile')` passed
as `cypher_llm` to `GraphCypherQAChain.from_llm`. -/
def cypher_llm : ChatGroqConfig := ⟨some "llama-3.1-70b-versatile", some 0⟩

/-- `ChatGroq(temperature=0)` passed as `qa_llm` to
`GraphCypherQAChain.from_llm` (no model name argument). -/
def qa_llm : ChatGroqConfig := ⟨none, some 0⟩

/-- `ChatGroq(temperature=0, model_name='llama-3.1-70b-versatile')` bound to
`llm` and passed to `create_react_agent`. -/
def agent_llm : ChatGroqConfig := ⟨some "llama-3.1-70b-versatile", some 0⟩

/-- Every `ChatGroq` client the notebook constructs, in source order, each
tagged with the purpose the spec ascribes to its call site: answer
synthesis (`RetrievalQA` and the chain's `qa_llm`), Cypher query generation
(`cypher_llm`), agent action selection (the ReAct agent's `llm`). -/
def notebookLLMClients : List (ChatGroqConfig × LLMPurpose) :=
  [(retrievalQA_llm, LLMPurpose.answerSynthesis),
   (cypher_llm, LLMPurpose.queryGeneration),
   (qa_llm, LLMPurpose.answerSynthesis),
   (agent_llm, LLMPurpose.actionSelection)]

/-- The two wrapper entry points the notebook exposes as tool functions. -/
inductive WrapperFunc
  | vectorQA_invoke
  | cypherChain_invoke
  deriving DecidableEq, Repr

/-- One `Tool(name=..., func=..., description=...)` record of the agent cell. -/
structure ToolDef where
  name : String
  func : WrapperFunc
  description : String
  deriving DecidableEq, Repr

/-- The first tool record: `Tool(name="Tasks", func=vector_qa.invoke, ...)`. -/
def tasksTool : ToolDef :=
  ⟨"Tasks", WrapperFunc.vectorQA_invoke,
    "Useful when you need to answer questions about descriptions of tasks.\n        Not useful for counting the number of tasks.\n        Use full question as input.\n        "⟩

/-- The second tool record: `Tool(name="Graph", func=cypher_chain.invoke, ...)`. -/
def graphTool : ToolDef :=
  ⟨"Graph", WrapperFunc.cypherChain_invoke,
    "Useful when you need to answer questions about microservices,\n        their dependencies or assigned people. Also useful for any sort of \n        aggregation like counting the number of tasks, etc.\n        Use full question as input.\n        "⟩

/-- The notebook's `tools` list. -/
def tools : List ToolDef := [tasksTool, graphTool]

/-- The keyword arguments of `AgentExecutor(agent=agent, tools=tools,
verbose=True, max_iterations=2)`. -/
structure AgentExecutorConfig where
  tools : List ToolDef
  verbose : Bool
  max_iterations : Nat
  deriving DecidableEq, Repr

/-- The notebook's `agent_executor` configuration. -/
def agentExecutorConfig : AgentExecutorConfig := ⟨tools, true, 2⟩

/-- The notebook's `import_url` variable: the URL of the static dataset
definition fetched by `requests.get`. -/
def import_url : String :=
  "https://gist.githubusercontent.com/tomasonjo/08dc8ba0e19d592c4c3cde40dd6abcc3/raw/e90b0c9386bf8be15b199e8ac8f83fc265a2ac57/microservices.json"

/-- The literal Cypher query of the validation cell,
`graph.query("MATCH (t:Task \x7bstatus:'open'\x7d) RETURN count(*)")`. -/
def openTasksCountQuery : String :=
  "MATCH (t:Task \x7bstatus:\x27open\x27\x7d) RETURN count(*)"

/-- The agent prompt template string assigned to `template` in the agent
cell. -/
def template : String :=
  "Answer the following questions as best you can. You have access to the following tools:\n\n{tools}\n\nUse the following format:\n\nQuestion: the input question you must answer, ignore the question or query in the parse-able action\nThought: you should always think about what to do\nAction: the action to take, should be one of [{tool_names}]\nAction Input: the input to the action\nObservation: the result of the action, ignore the query part\nFinal Answer: the final answer to the original input question\n\nBegin!\n\nQuestion: {input}\nThought:{agent_scratchpad}"

/-- The argument of a `graph.query(...)` call in the notebook: either the
`import_query` variable holding the fetched dataset query, or a string
literal written in the notebook itself. -/
inductive QueryArg
  | importQueryVar
  | literal (q : String)
  deriving DecidableEq, Repr

/-- One external call performed by a notebook expression, tagged by the API
invoked and the arguments the notebook passes. -/
inductive CallKind
  | neo4jGraphNew (conn : ConnectionConfig)
  | httpGetJson (u : String)
  | graphQuery (arg : QueryArg)
  | graphRefreshSchema
  | vectorFromExistingGraph (cfg : VectorIndexConfig)
  | vectorSimilaritySearch (q : String)
  | chatGroqNew (cfg : ChatGroqConfig)
  | retrievalQANew (chain_type : String)
  | vectorQAInvoke (q : String)
  | cypherChainNew
  | cypherChainInvoke (q : String)
  | promptFromTemplate (t : String)
  | createReactAgentCall
  | agentExecutorNew (cfg : AgentExecutorConfig)
  | agentExecutorInvoke (q : String)
  | printOutput
  | setEnvVar (k : String)
  deriving DecidableEq, Repr

/-- A top-level notebook statement.  The constructors `spawnTask` and
`tryHandler` exist so that the absence of task spawning and of exception
handlers in the notebook is a statable property; no statement of the
notebook uses them. -/
inductive Stmt
  | importModule (m : String)
  | assignLit (target value : String)
  | assign (target : String) (calls : List CallKind)
  | exprStmt (calls : List CallKind)
  | forEachPrint (x seq : String)
  | spawnTask (calls : List CallKind)
  | tryHandler (body : List CallKind)
  deriving DecidableEq, Repr

/-- The ordered external calls a statement performs when executed. -/
def Stmt.calls : Stmt → List CallKind
  | Stmt.importModule _ => []
  | Stmt.assignLit _ _ => []
  | Stmt.assign _ cs => cs
  | Stmt.exprStmt cs => cs
  | Stmt.forEachPrint _ _ => [CallKind.printOutput]
  | Stmt.spawnTask cs => cs
  | Stmt.tryHandler cs => cs

/-- Whether a statement spawns a background task. -/
def Stmt.isSpawn : Stmt → Bool
  | Stmt.spawnTask _ => true
  | _ => false

/-- Whether a statement is an exception handler (`try`/`except`). -/
def Stmt.isHandler : Stmt → Bool
  | Stmt.tryHandler _ => true
  | _ => false

/-- The notebook's code cells, statement by statement, in execution order. -/
def notebookProgram : List Stmt :=
  [ -- cell 1
   Stmt.importModule "langchain_community.graphs",
   Stmt.assignLit "url" url,
   Stmt.assignLit "username" username,
   Stmt.assignLit "password" password,
   Stmt.assign "graph" [CallKind.neo4jGraphNew graphConnection],
   -- cell 3
   Stmt.importModule "requests",
   Stmt.assignLit "import_url" import_url,
   Stmt.assign "import_query" [CallKind.httpGetJson import_url],
   Stmt.exprStmt [CallKind.graphQuery QueryArg.importQueryVar],
   -- cell 5
   Stmt.importModule "langchain_community.vectorstores.neo4j_vector",
   Stmt.importModule "langchain_ollama",
   Stmt.assign "vector_index" [CallKind.vectorFromExistingGraph vectorIndexConfig],
   -- cell 7
   Stmt.assign "response"
     [CallKind.vectorSimilaritySearch "How will RecommendationService be updated?"],
   -- cell 8
   Stmt.forEachPrint "i" "response",
   -- cell 10
   Stmt.importModule "os",
   Stmt.importModule "langchain.chains",
   Stmt.importModule "langchain_groq",
   Stmt.exprStmt [CallKind.setEnvVar "GROQ_API_KEY"],
   Stmt.assign "vector_qa"
     [CallKind.chatGroqNew retrievalQA_llm, CallKind.retrievalQANew "stuff"],
   -- cell 11
   Stmt.exprStmt [CallKind.vectorQAInvoke "How will recommendation service be updated?"],
   -- cell 13
   Stmt.exprStmt [CallKind.vectorQAInvoke "How many open tickets are there?"],
   -- cell 15
   Stmt.exprStmt [CallKind.graphQuery (QueryArg.literal openTasksCountQuery)],
   -- cell 17
   Stmt.importModule "langchain.chains",
   Stmt.exprStmt [CallKind.graphRefreshSchema],
   Stmt.assign "cypher_chain"
     [CallKind.chatGroqNew cypher_llm, CallKind.chatGroqNew qa_llm,
      CallKind.cypherChainNew],
   -- cells 19, 21, 23, 25
   Stmt.exprStmt [CallKind.cypherChainInvoke "How many open tickets are there?"],
   Stmt.exprStmt [CallKind.cypherChainInvoke "Which Team has the most open Tasks?"],
   Stmt.exprStmt [CallKind.cypherChainInvoke "Which services depend on Database directly?"],
   Stmt.exprStmt [CallKind.cypherChainInvoke "Which services depend on Database indirectly?"],
   -- cell 28
   Stmt.importModule "langchain.agents",
   Stmt.assign "tools" [],
   Stmt.importModule "langchain_core.prompts",
   Stmt.assignLit "template" template,
   Stmt.assign "prompt" [CallKind.promptFromTemplate template],
   Stmt.assign "llm" [CallKind.chatGroqNew agent_llm],
   Stmt.assign "agent" [CallKind.createReactAgentCall],
   Stmt.assign "agent_executor" [CallKind.agentExecutorNew agentExecutorConfig],
   Stmt.assign "response"
     [CallKind.agentExecutorInvoke "Which team is assigned to maintain PaymentService?"],
   Stmt.exprStmt [CallKind.printOutput],
   -- cell 30
   Stmt.assign "response"
     [CallKind.agentExecutorInvoke "What tasks have optimization in their description?"],
   Stmt.exprStmt [CallKind.printOutput]]

/-- The flat trace of external calls the program performs, in order. -/
def callTrace (p : List Stmt) : List CallKind := p.flatMap Stmt.calls

/-- Whether a call is the network fetch of the dataset definition. -/
def CallKind.isHttpGet : CallKind → Bool
  | CallKind.httpGetJson _ => true
  | _ => false

/-- Whether a call constructs the persistent graph-database connection
object (`Neo4jGraph(...)`). -/
def CallKind.isConnectionNew : CallKind → Bool
  | CallKind.neo4jGraphNew _ => true
  | _ => false

/-- The connection triple a call passes to the graph database, when it
passes one. -/
def CallKind.connArg : CallKind → Option ConnectionConfig
  | CallKind.neo4jGraphNew c => some c
  | CallKind.vectorFromExistingGraph cfg => some cfg.conn
  | _ => none

/-- The arguments of the program's direct `graph.query(...)` calls. -/
def graphQueryArgs (p : List Stmt) : List QueryArg :=
  (callTrace p).filterMap fun c =>
    match c with
    | CallKind.graphQuery a => some a
    | _ => none

/-- Whether `w` occurs as a substring of `q`. -/
def occursIn (w q : String) : Bool :=
  q.data.tails.any fun t => w.data.isPrefixOf t

/-- Cypher clauses that write to the graph; a query containing none of them
only reads. -/
def cypherWriteClauses : List String :=
  ["CREATE", "MERGE", "SET", "DELETE", "REMOVE", "DROP", "FOREACH"]

/-- A Cypher query string is read-only when it contains no write clause. -/
def cypherIsReadOnly (q : String) : Bool :=
  cypherWriteClauses.all fun w => !occursIn w q

/-- Whether a `graph.query` argument is a load operation that can populate
the graph: the bulk `import_query` is, and a literal query is only if it
contains a write clause. -/
def populatesGraph : QueryArg → Bool
  | QueryArg.importQueryVar => true
  | QueryArg.literal q => !cypherIsReadOnly q

/-- The body fetched from `import_url`, as parsed by `.json()`: a JSON
object with a `query` field holding the dataset definition, and possibly
other fields. -/
structure DatasetDocument where
  query : String
  otherFields : List (String × String)
  deriving DecidableEq, Repr

/-- The notebook's `import_query` value:
`requests.get(import_url).json()['query']`, the `query` field of the
fetched document, unchanged. -/
def importQueryOf (d : DatasetDocument) : String := d.query

/-- An embedding vector returned by the embedding service. -/
abbrev Vec := List Int

/-- A graph node as the vector-index library sees it: a label, string-valued
text properties, and vector-valued properties (where embeddings are
stored). -/
structure GNode where
  label : String
  props : List (String × String)
  vecProps : List (String × Vec)
  deriving DecidableEq, Repr

/-- Look up a string-valued property. -/
def lookupStr (ps : List (String × String)) (k : String) : Option String :=
  (ps.find? fun p => p.1 == k).map fun p => p.2

/-- Look up a vector-valued property. -/
def lookupVec (ps : List (String × Vec)) (k : String) : Option Vec :=
  (ps.find? fun p => p.1 == k).map fun p => p.2

/-- Store a vector-valued property, replacing any previous value. -/
def setVec (ps : List (String × Vec)) (k : String) (v : Vec) :
    List (String × Vec) :=
  (k, v) :: ps.filter fun p => p.1 != k

/-- Modelled from the spec: the map-like text the vector-index library
builds from the configured `text_node_properties` of a node (the notebook
prints it as a dictionary-like string of exactly those properties). -/
def textFor (keys : List String) (n : GNode) : String :=
  String.join (keys.map fun k => "\n" ++ k ++ ": " ++ (lookupStr n.props k).getD "")

/-- Modelled from the spec: `Neo4jVector.from_existing_graph`, which
"instructs the graph database (via the external vector-index library) to
compute and persist embeddings for a node label's text properties".  Every
node carrying the configured label gets the embedding of its configured
text properties stored under the configured embedding property; all other
nodes are untouched, and no node is created or removed. -/
def from_existing_graph (embed : String → Vec) (cfg : VectorIndexConfig)
    (g : List GNode) : List GNode :=
  g.map fun n =>
    if n.label == cfg.node_label then
      ⟨n.label, n.props,
        setVec n.vecProps cfg.embedding_node_property
          (embed (textFor cfg.text_node_properties n))⟩
    else n

/-- Squared Euclidean distance between embedding vectors: the distance
metric of the spec's nearest-neighbor lookup. -/
def dist2 (u v : Vec) : Int :=
  ((u.zip v).map fun p => (p.1 - p.2) * (p.1 - p.2)).sum

/-- The nodes the vector index serves: those with the configured label and
a stored embedding. -/
def indexedNodes (cfg : VectorIndexConfig) (g : List GNode) : List GNode :=
  g.filter fun n =>
    n.label == cfg.node_label &&
      (lookupVec n.vecProps cfg.embedding_node_property).isSome

/-- Distance from a node's stored embedding to the query vector. -/
def nodeDist (cfg : VectorIndexConfig) (qv : Vec) (n : GNode) : Int :=
  dist2 ((lookupVec n.vecProps cfg.embedding_node_property).getD []) qv

/-- Modelled from the spec: `similarity_search` embeds the query and
returns, of the indexed nodes, the ones nearest to the query embedding
(the library's default of four results), in order of distance. -/
def similarity_search (embed : String → Vec) (cfg : VectorIndexConfig)
    (g : List GNode) (q : String) : List GNode :=
  (List.insertionSort
    (fun a b => nodeDist cfg (embed q) a ≤ nodeDist cfg (embed q) b)
    (indexedNodes cfg g)).take 4

/-- One observable step of the Cypher QA chain. -/
inductive ChainEvent
  | llm (prompt output : String)
  | db (query result : String)
  deriving DecidableEq, Repr

/-- Modelled from the spec: the prompt of the Cypher-generation call, which
sends "the user's question and the graph's schema" to the model. -/
def cypherGenPrompt (schema question : String) : String :=
  "Schema:\n" ++ schema ++ "\nQuestion:\n" ++ question

/-- Modelled from the spec: the prompt of the answer-phrasing call, which
"asks the model again to phrase the raw result as natural language". -/
def qaPhrasePrompt (question result : String) : String :=
  "Question:\n" ++ question ++ "\nRaw result:\n" ++ result

/-- Modelled from the spec: one invocation of the `GraphCypherQAChain`
wrapper, returning the final answer and the ordered trace of external
steps it performed. -/
def cypherChainRun (genLLM phraseLLM : String → String)
    (runQuery : String → String) (schema question : String) :
    String × List ChainEvent :=
  let cy := genLLM (cypherGenPrompt schema question)
  let res := runQuery cy
  let ans := phraseLLM (qaPhrasePrompt question res)
  (ans, [ChainEvent.llm (cypherGenPrompt schema question) cy,
         ChainEvent.db cy res,
         ChainEvent.llm (qaPhrasePrompt question res) ans])

/-- The agent's choice at one iteration: invoke a named tool on an input,
or emit the final answer. -/
inductive AgentDecision
  | act (tool input : String)
  | finish (answer : String)
  deriving DecidableEq, Repr

/-- Result of an agent run: the final answer, if one was produced before
the cap, and the number of tool-executing iterations performed. -/
structure AgentOutcome where
  answer : Option String
  iterations : Nat
  deriving DecidableEq, Repr

/-- Modelled from the spec: the `AgentExecutor` loop, which "repeatedly
asks a hosted language model to choose a tool and input, executes it, and
feeds the observation back, until a final answer is produced or an
iteration cap is reached".  The first argument of the recursion is the
number of iterations still allowed. -/
def agentLoop (plan : List (String × String) → AgentDecision)
    (runTool : String → String → String) :
    Nat → List (String × String) → AgentOutcome
  | 0, _ => ⟨none, 0⟩
  | fuel + 1, scratchpad =>
    match plan scratchpad with
    | AgentDecision.finish a => ⟨some a, 0⟩
    | AgentDecision.act tool input =>
      let obs := runTool tool input
      let r := agentLoop plan runTool fuel (scratchpad ++ [(tool ++ ": " ++ input, obs)])
      ⟨r.answer, r.iterations + 1⟩

/-- Dispatch of a named tool through the notebook's `tools` list, as the
agent framework performs it. -/
def dispatchTool (name : String) : Option WrapperFunc :=
  (tools.find? fun t => t.name == name).map fun t => t.func

/-- A failure raised by one of the external collaborators. -/
inductive ExtError
  | network (msg : String)
  | badQuery (msg : String)
  | modelAPI (msg : String)
  deriving DecidableEq, Repr

/-- The data-loading cell as a pipeline over fallible external calls:
fetch the document, then submit its `query` field; the notebook wraps
neither call in a handler. -/
def loadPipeline (fetch : Except ExtError DatasetDocument)
    (runQuery : String → Except ExtError (List (List (String × String)))) :
    Except ExtError (List (List (String × String))) :=
  match fetch with
  | Except.error e => Except.error e
  | Except.ok d => runQuery (importQueryOf d)

/-- The Cypher chain invocation as a pipeline over fallible external
calls: generation, execution, phrasing, with no handler of the
notebook's own. -/
def cypherChainRunE (genLLM phraseLLM : String → Except ExtError String)
    (runQuery : String → Except ExtError String) (schema question : String) :
    Except ExtError String :=
  match genLLM (cypherGenPrompt schema question) with
  | Except.error e => Except.error e
  | Except.ok cy =>
    match runQuery cy with
    | Except.error e => Except.error e
    | Except.ok res =>
      match phraseLLM (qaPhrasePrompt question res) with
      | Except.error e => Except.error e
      | Except.ok ans => Except.ok ans

/-- The part of a vector-index configuration that describes which node
label and properties feed the index. -/
structure VectorFeedConfig where
  node_label : String
  text_node_properties : List String
  embedding_node_property : String
  deriving DecidableEq, Repr

/-- Project the feeding description out of a vector-index configuration. -/
def feedOf (c : VectorIndexConfig) : VectorFeedConfig :=
  ⟨c.node_label, c.text_node_properties, c.embedding_node_property⟩

/-- Every flat configuration record the notebook defines that describes
which node label and properties feed the vector index: one per
`from_existing_graph` call in the program. -/
def vectorFeedConfigs : List VectorFeedConfig :=
  (callTrace notebookProgram).filterMap fun c =>
    match c with
    | CallKind.vectorFromExistingGraph cfg => some (feedOf cfg)
    | _ => none

/-- A sample embedding function: every text embeds to the vector `[0]`. -/
def wEmbed : String → Vec := fun _ => [0]

/-- Sample text properties of a `Task` node. -/
def wProps : List (String × String) :=
  [("name", "t"), ("description", "d"), ("status", "open")]

/-- A sample `Task` node whose stored embedding is the vector `[k]`. -/
def wTask (k : Int) : GNode := ⟨"Task", wProps, [("embedding", [k])]⟩

/-- A sample graph of five indexed `Task` nodes. -/
def wGraph : List GNode := [wTask 1, wTask 2, wTask 3, wTask 4, wTask 5]

/-- The image of `wTask 1` under the index construction with `wEmbed`. -/
def wNode0 : GNode := ⟨"Task", wProps, [("embedding", [0])]⟩

/-! Helper lemmas shared by the claim theorems. -/

/-- Storing a vector property makes it the looked-up value for its key. -/
theorem lookupVec_setVec (ps : List (String × Vec)) (k : String) (v : Vec) :
    lookupVec (setVec ps k v) k = some v := by
  simp [lookupVec, setVec, List.find?]

/-- The index construction changes no node label: it creates and removes no
node, only stores embeddings. -/
theorem from_existing_graph_label (e : String → Vec) (cfg : VectorIndexConfig)
    (g : List GNode) :
    (from_existing_graph e cfg g).map GNode.label = g.map GNode.label := by
  unfold from_existing_graph
  rw [List.map_map]
  apply List.map_congr_left
  intro n _
  by_cases h : n.label == cfg.node_label
  · simp [h, Function.comp]
  · simp [h, Function.comp]

/-- The agent loop performs at most as many iterations as it has fuel. -/
theorem agentLoop_iterations_le (plan : List (String × String) → AgentDecision)
    (runTool : String → String → String) :
    ∀ fuel scratchpad, (agentLoop plan runTool fuel scratchpad).iterations ≤ fuel := by
  intro fuel
  induction fuel with
  | zero => intro s; simp [agentLoop]
  | succ n ih =>
    intro s
    simp only [agentLoop]
    cases hp : plan s with
    | finish a => simp
    | act t i => simpa using Nat.succ_le_succ (ih _)

/-- As soon as the model emits a final answer, the loop stops with it. -/
theorem agentLoop_finish (plan : List (String × String) → AgentDecision)
    (runTool : String → String → String) (fuel : Nat)
    (scratchpad : List (String × String)) (a : String)
    (h : plan scratchpad = AgentDecision.finish a) :
    agentLoop plan runTool (fuel + 1) scratchpad = ⟨some a, 0⟩ := by
  simp [agentLoop, h]

/-- C1: the bulk data loader performs exactly one network fetch (of
`import_url`), and the single bulk query it submits to the graph database
is the fetched dataset definition — the `query` field of the fetched
document — unchanged; the only other direct graph query of the notebook is
the read-only open-task count, and the vector-index construction adds no
node, so no other load operation populates the graph. -/
theorem C1_bulk_loader_single_fetch_verbatim :
    (callTrace notebookProgram).filter CallKind.isHttpGet
      = [CallKind.httpGetJson import_url] ∧
    (∀ d : DatasetDocument, importQueryOf d = d.query) ∧
    graphQueryArgs notebookProgram
      = [QueryArg.importQueryVar, QueryArg.literal openTasksCountQuery] ∧
    (graphQueryArgs notebookProgram).filter populatesGraph
      = [QueryArg.importQueryVar] ∧
    (∀ e g, (from_existing_graph e vectorIndexConfig g).map GNode.label
      = g.map GNode.label) := by
  refine ⟨by decide, fun d => rfl, by decide, by decide, ?_⟩
  intro e g
  exact from_existing_graph_label e vectorIndexConfig g

/-- C2: the vector index adapter is configured with node label `Task`, text
properties `name`, `description`, `status`, and embedding property
`embedding`; its construction persists, for every node with the configured
label, the embedding of exactly those text properties under the configured
property, leaves other nodes untouched, and afterwards `similarity_search`
is a nearest-neighbor lookup over the stored embeddings: it returns at
most four indexed nodes, and every node it leaves out is at least as far
from the query embedding as every node it returns. -/
theorem C2_vector_index_adapter :
    vectorIndexConfig.node_label = "Task" ∧
    vectorIndexConfig.text_node_properties = ["name", "description", "status"] ∧
    vectorIndexConfig.embedding_node_property = "embedding" ∧
    (∀ e g m, m ∈ from_existing_graph e vectorIndexConfig g → m.label = "Task" →
      lookupVec m.vecProps "embedding"
        = some (e (textFor ["name", "description", "status"] m))) ∧
    (∀ e g n, n ∈ g → ¬ n.label = "Task" →
      n ∈ from_existing_graph e vectorIndexConfig g) ∧
    (∀ e g q, (similarity_search e vectorIndexConfig g q).length ≤ 4) ∧
    (∀ e g q m, m ∈ similarity_search e vectorIndexConfig g q →
      m ∈ indexedNodes vectorIndexConfig g) ∧
    (∀ e g q y, y ∈ indexedNodes vectorIndexConfig g →
      y ∉ similarity_search e vectorIndexConfig g q →
      ∀ x, x ∈ similarity_search e vectorIndexConfig g q →
        nodeDist vectorIndexConfig (e q) x ≤ nodeDist vectorIndexConfig (e q) y) := by
  refine ⟨rfl, rfl, rfl, ?_, ?_, ?_, ?_, ?_⟩
  · intro e g m hm hlab
    unfold from_existing_graph at hm
    rcases List.mem_map.1 hm with ⟨n, hn, hfn⟩
    by_cases h : n.label == vectorIndexConfig.node_label
    · rw [if_pos h] at hfn
      subst hfn
      exact lookupVec_setVec _ _ _
    · rw [if_neg h] at hfn
      subst hfn
      exact absurd hlab (by simpa using h)
  · intro e g n hn hlab
    unfold from_existing_graph
    refine List.mem_map.2 ⟨n, hn, ?_⟩
    rw [if_neg]
    simpa using hlab
  · intro e g q
    unfold similarity_search
    exact List.length_take_le 4 _
  · intro e g q m hm
    unfold similarity_search at hm
    exact (List.perm_insertionSort _ _).subset (List.mem_of_mem_take hm)
  · intro e g q y hy hyn x hx
    unfold similarity_search at hyn hx
    set r : GNode → GNode → Prop := fun a b =>
      nodeDist vectorIndexConfig (e q) a ≤ nodeDist vectorIndexConfig (e q) b with hr
    haveI : IsTotal GNode r := ⟨fun a b => le_total _ _⟩
    haveI : IsTrans GNode r := ⟨fun a b c hab hbc => le_trans hab hbc⟩
    set s := List.insertionSort r (indexedNodes vectorIndexConfig g) with hs
    have hperm : s.Perm (indexedNodes vectorIndexConfig g) :=
      List.perm_insertionSort r (indexedNodes vectorIndexConfig g)
    have hsort : List.Sorted r s :=
      List.sorted_insertionSort r (indexedNodes vectorIndexConfig g)
    have hy' : y ∈ s := hperm.mem_iff.2 hy
    have hsplit : y ∈ s.take 4 ∨ y ∈ s.drop 4 := by
      rw [← List.mem_append, List.take_append_drop]
      exact hy'
    rcases hsplit with h | h
    · exact absurd h hyn
    · have hps : List.Pairwise r (s.take 4 ++ s.drop 4) := by
        rw [List.take_append_drop]
        exact hsort
      exact (List.pairwise_append.1 hps).2.2 x hx y h

/-- Witness for C2: on a concrete five-task graph with the constant
embedding `wEmbed`, the construction stores the embedding computed from
the three configured properties, and the left-out node `wTask 5` is no
nearer to the query than the returned node `wTask 1`. -/
theorem C2_vector_index_adapter_witness :
    (wNode0 ∈ from_existing_graph wEmbed vectorIndexConfig wGraph) ∧
    (lookupVec wNode0.vecProps "embedding"
      = some (wEmbed (textFor ["name", "description", "status"] wNode0))) ∧
    (wTask 5 ∈ indexedNodes vectorIndexConfig wGraph) ∧
    (wTask 5 ∉ similarity_search wEmbed vectorIndexConfig wGraph "q") ∧
    (wTask 1 ∈ similarity_search wEmbed vectorIndexConfig wGraph "q") ∧
    nodeDist vectorIndexConfig (wEmbed "q") (wTask 1)
      ≤ nodeDist vectorIndexConfig (wEmbed "q") (wTask 5) :=
  ⟨by decide,
   C2_vector_index_adapter.2.2.2.1 wEmbed wGraph wNode0 (by decide) (by decide),
   by decide, by decide, by decide,
   C2_vector_index_adapter.2.2.2.2.2.2.2 wEmbed wGraph "q" (wTask 5)
     (by decide) (by decide) (wTask 1) (by decide)⟩

/-- C3: for every question, the query-translation wrapper first sends the
question together with the schema to the language model obtaining a Cypher
query, then executes exactly that query against the graph database, then
sends the raw result to the model a second time, and returns the second
model output as its result — in exactly this order. -/
theorem C3_cypher_chain_two_llm_calls_in_order :
    ∀ genLLM phraseLLM runQuery schema question,
      ∃ cy res ans,
        cy = genLLM (cypherGenPrompt schema question) ∧
        res = runQuery cy ∧
        ans = phraseLLM (qaPhrasePrompt question res) ∧
        cypherChainRun genLLM phraseLLM runQuery schema question =
          (ans, [ChainEvent.llm (cypherGenPrompt schema question) cy,
                 ChainEvent.db cy res,
                 ChainEvent.llm (qaPhrasePrompt question res) ans]) := by
  intro genLLM phraseLLM runQuery schema question
  exact ⟨_, _, _, rfl, rfl, rfl, rfl⟩

/-- C4: the agent loop always terminates: its iteration count never
exceeds its fuel, in particular never exceeds the configured cap
`max_iterations = 2`, and it stops immediately with the answer as soon as
the model produces a final answer. -/
theorem C4_agent_loop_terminates_within_cap :
    agentExecutorConfig.max_iterations = 2 ∧
    (∀ plan runTool fuel scratchpad,
      (agentLoop plan runTool fuel scratchpad).iterations ≤ fuel) ∧
    (∀ plan runTool scratchpad,
      (agentLoop plan runTool agentExecutorConfig.max_iterations scratchpad).iterations ≤ 2) ∧
    (∀ plan runTool fuel scratchpad a, plan scratchpad = AgentDecision.finish a →
      agentLoop plan runTool (fuel + 1) scratchpad = ⟨some a, 0⟩) := by
  refine ⟨rfl, ?_, ?_, ?_⟩
  · intro plan runTool fuel scratchpad
    exact agentLoop_iterations_le plan runTool fuel scratchpad
  · intro plan runTool scratchpad
    exact agentLoop_iterations_le plan runTool 2 scratchpad
  · intro plan runTool fuel scratchpad a h
    exact agentLoop_finish plan runTool fuel scratchpad a h

/-- Witness for C4: a plan that immediately finishes makes the loop stop
at once with that answer and zero iterations. -/
theorem C4_agent_loop_terminates_within_cap_witness :
    ((fun _ : List (String × String) => AgentDecision.finish "done") []
        = AgentDecision.finish "done") ∧
    agentLoop (fun _ => AgentDecision.finish "done") (fun _ _ => "") (1 + 1) []
        = ⟨some "done", 0⟩ :=
  ⟨rfl, C4_agent_loop_terminates_within_cap.2.2.2
    (fun _ => AgentDecision.finish "done") (fun _ _ => "") 1 [] "done" rfl⟩

/-- C5: the notebook defines no error-handling branch (no statement is an
exception handler), and a failure of any external call — the dataset
fetch, the bulk query submission, Cypher generation, Cypher execution, or
answer phrasing — propagates unchanged to the caller of the pipeline. -/
theorem C5_failures_propagate_unhandled :
    notebookProgram.all (fun s => !s.isHandler) = true ∧
    (∀ e runQuery, loadPipeline (Except.error e) runQuery = Except.error e) ∧
    (∀ d rq e, rq (importQueryOf d) = Except.error e →
      loadPipeline (Except.ok d) rq = Except.error e) ∧
    (∀ gen ph rq schema q e, gen (cypherGenPrompt schema q) = Except.error e →
      cypherChainRunE gen ph rq schema q = Except.error e) ∧
    (∀ gen ph rq schema q cy e, gen (cypherGenPrompt schema q) = Except.ok cy →
      rq cy = Except.error e →
      cypherChainRunE gen ph rq schema q = Except.error e) ∧
    (∀ gen ph rq schema q cy res e, gen (cypherGenPrompt schema q) = Except.ok cy →
      rq cy = Except.ok res → ph (qaPhrasePrompt q res) = Except.error e →
      cypherChainRunE gen ph rq schema q = Except.error e) := by
  refine ⟨by decide, fun e runQuery => rfl, ?_, ?_, ?_, ?_⟩
  · intro d rq e h
    simpa [loadPipeline] using h
  · intro gen ph rq schema q e h
    simp [cypherChainRunE, h]
  · intro gen ph rq schema q cy e h1 h2
    simp [cypherChainRunE, h1, h2]
  · intro gen ph rq schema q cy res e h1 h2 h3
    simp [cypherChainRunE, h1, h2, h3]

/-- Witness for C5: a failing bulk query submission surfaces as exactly
that error. -/
theorem C5_failures_propagate_unhandled_witness :
    loadPipeline (Except.ok ⟨"Q", []⟩)
        (fun _ => Except.error (ExtError.badQuery "boom"))
      = Except.error (ExtError.badQuery "boom") :=
  C5_failures_propagate_unhandled.2.2.1 ⟨"Q", []⟩
    (fun _ => Except.error (ExtError.badQuery "boom"))
    (ExtError.badQuery "boom") rfl

/-- Counterexample to C6 as stated: the retrieval-QA client is constructed
with no temperature and the chain answer client with no model name, so not
every client is given both; moreover two clients serving different
purposes differ in temperature, not only in prompt content. -/
theorem C6_counterexample_client_params :
    retrievalQA_llm.temperature = none ∧
    qa_llm.model_name = none ∧
    ¬ (∀ c ∈ notebookLLMClients, c.1.model_name.isSome ∧ c.1.temperature.isSome) ∧
    retrievalQA_llm.temperature ≠ cypher_llm.temperature := by
  decide

/-- C6 (amended): the notebook constructs four language-model clients,
each given a model name or a temperature (the retrieval-QA client omits
the temperature and the chain answer client omits the model name, relying
on library defaults), and they serve exactly three distinct purposes:
answer synthesis, query-language generation, and agent action selection. -/
theorem C6_llm_clients_three_purposes :
    notebookLLMClients.length = 4 ∧
    (notebookLLMClients.map Prod.snd).toFinset
      = {LLMPurpose.answerSynthesis, LLMPurpose.queryGeneration,
         LLMPurpose.actionSelection} ∧
    (notebookLLMClients.map Prod.snd).toFinset.card = 3 ∧
    notebookLLMClients.all
      (fun c => c.1.model_name.isSome || c.1.temperature.isSome) = true ∧
    retrievalQA_llm = ⟨some "llama-3.1-70b-versatile", none⟩ ∧
    cypher_llm = ⟨some "llama-3.1-70b-versatile", some 0⟩ ∧
    qa_llm = ⟨none, some 0⟩ ∧
    agent_llm = ⟨some "llama-3.1-70b-versatile", some 0⟩ := by
  decide

/-- Counterexample to C7 as stated: the notebook defines exactly one flat
configuration record describing which node label and properties feed the
vector index, not two. -/
theorem C7_counterexample_config_record_count :
    vectorFeedConfigs.length = 1 ∧ vectorFeedConfigs.length ≠ 2 := by
  decide

/-- C7 (amended): the notebook defines exactly one flat configuration
record describing which node label and properties feed the vector index:
label `Task`, text properties `name`, `description`, `status`, embedding
property `embedding`. -/
theorem C7_single_feed_config :
    vectorFeedConfigs
      = [⟨"Task", ["name", "description", "status"], "embedding"⟩] := by
  decide

/-- C8: the program is strictly sequential — no statement spawns a task or
handles an exception, execution of a statement list is the concatenation
of each statement's blocking calls in program order — and exactly one
persistent database connection object is constructed. -/
theorem C8_sequential_single_connection :
    notebookProgram.all (fun s => !s.isSpawn) = true ∧
    notebookProgram.all (fun s => !s.isHandler) = true ∧
    ((callTrace notebookProgram).filter CallKind.isConnectionNew).length = 1 ∧
    (∀ p q : List Stmt, callTrace (p ++ q) = callTrace p ++ callTrace q) ∧
    (∀ s : Stmt, ∀ rest : List Stmt,
      callTrace (s :: rest) = s.calls ++ callTrace rest) := by
  refine ⟨by decide, by decide, by decide, ?_, ?_⟩
  · intro p q
    simp [callTrace]
  · intro s rest
    simp [callTrace]

/-- C9: the vector index adapter is constructed with the same connection
triple as the graph client — `(url, username, password)` — and every call
in the program that passes a connection triple passes exactly that one, so
all graph reads, writes, embedding persistence and similarity lookups
target one and the same graph store. -/
theorem C9_single_graph_store :
    vectorIndexConfig.conn = graphConnection ∧
    graphConnection = ⟨url, username, password⟩ ∧
    (callTrace notebookProgram).all
      (fun c => match c.connArg with
        | some cc => cc == graphConnection
        | none => true) = true := by
  decide

set_option maxRecDepth 2048 in
/-- C10: the agent tool list has exactly two entries, named `Tasks` and
`Graph`, whose functions are the retrieval-QA wrapper invocation and the
query-translation wrapper invocation respectively; every dispatch through
the tool list lands on one of those two wrapper functions. -/
theorem C10_exactly_two_tools :
    tools.length = 2 ∧
    tools.map ToolDef.name = ["Tasks", "Graph"] ∧
    tools.map ToolDef.func
      = [WrapperFunc.vectorQA_invoke, WrapperFunc.cypherChain_invoke] ∧
    tools.all (fun t => t.func == WrapperFunc.vectorQA_invoke
      || t.func == WrapperFunc.cypherChain_invoke) = true ∧
    dispatchTool "Tasks" = some WrapperFunc.vectorQA_invoke ∧
    dispatchTool "Graph" = some WrapperFunc.cypherChain_invoke ∧
    agentExecutorConfig.tools = tools := by
  decide

end Neo4jRag
